import Mathlib

/-!
Verification of the simulation core of `ThreeBodyProblem.py` (lines 28-73 of
the script: the gravitational constant, the hard-coded configuration, the
function `compute_accelerations`, and the main Euler integration loop).

The embedding is exact: `numpy` float vectors become triples of real numbers,
`np.linalg.norm` becomes the real square root of the sum of squares, and a
Python `IndexError` (the only failure the script can actually produce in its
numeric core) becomes an `Except` error value.  The module-level array
`masses`, read by `compute_accelerations` from the enclosing scope, is passed
to the embedded function as an explicit first argument; the script's own value
for it is `scriptMasses` below.
-/

/-- A 3-component vector, as one row of a `numpy` array of shape (_, 3). -/
abbrev Vec3 := ℝ × ℝ × ℝ

/-- `np.linalg.norm` of a 3-vector: square root of the sum of squares. -/
noncomputable def norm3 (v : Vec3) : ℝ :=
  Real.sqrt (v.1 ^ 2 + v.2.1 ^ 2 + v.2.2 ^ 2)

/-- Componentwise division of a vector by a scalar (`r / dist**3`). -/
noncomputable def divScalar (v : Vec3) (s : ℝ) : Vec3 :=
  (v.1 / s, v.2.1 / s, v.2.2 / s)

/-- Componentwise multiplication of a vector by a scalar on the right
(`acc * dt`, `velocities * dt`). -/
def mulScalar (v : Vec3) (s : ℝ) : Vec3 :=
  (v.1 * s, v.2.1 * s, v.2.2 * s)

/-- The failure conditions named by the spec's error taxonomy, plus the one
runtime failure the script's numeric core can actually raise (a Python
`IndexError` from an out-of-range array access). -/
inductive SimError where
  | indexOutOfRange : SimError
  | invalidConfiguration : SimError
  | singularConfiguration : SimError
deriving DecidableEq

/-- Python sequence indexing: `l[i]`, raising `IndexError` out of range. -/
def getE {α : Type} (l : List α) (i : ℕ) : Except SimError α :=
  match l[i]? with
  | some a => Except.ok a
  | none => Except.error SimError.indexOutOfRange

/-- Line 29: `G = 6.67430e-11`. -/
noncomputable def G : ℝ := 6.67430e-11

/-- Line 34: `masses = np.array([1.0e27, 1.5e27, 0.55e27])`. -/
noncomputable def scriptMasses : List ℝ := [1.0e27, 1.5e27, 0.55e27]

/-- Lines 37-41: the hard-coded initial positions. -/
noncomputable def scriptPositions : List Vec3 :=
  [(1e10, 0, 0), (-1e10, 0, 0), (0, 1e10, 0)]

/-- Lines 44-48: the hard-coded initial velocities. -/
noncomputable def scriptVelocities : List Vec3 :=
  [(10, 1000, -150), (-20, -1500, 100), (2000, 0, 250)]

/-- Line 51: `dt = 0.25e4`. -/
noncomputable def scriptDt : ℝ := 0.25e4

/-- Line 52: `steps = 50000`. -/
def scriptSteps : ℕ := 50000

/-- Lines 63-65, one inner-loop iteration with `i != j`:
`r = pos[j] - pos[i]`, `dist = np.linalg.norm(r)`, and the added term
`G * masses[j] * r / dist**3`. -/
noncomputable def accContrib (mj : ℝ) (pI pJ : Vec3) : Vec3 :=
  let r := pJ - pI
  let dist := norm3 r
  divScalar ((G * mj) • r) (dist ^ 3)

/-- Lines 61-65: the inner `for j in range(3)` loop accumulating `acc[i]`,
with the array reads `pos[j]`, `pos[i]`, `masses[j]` made fallible. -/
noncomputable def accRow (m : List ℝ) (pos : List Vec3) (i : ℕ) :
    Except SimError Vec3 :=
  (List.range 3).foldlM
    (fun a j =>
      if i = j then Except.ok a
      else do
        let pJ ← getE pos j
        let pI ← getE pos i
        let mj ← getE m j
        Except.ok (a + accContrib mj pI pJ))
    (0 : Vec3)

/-- Lines 58-66: `compute_accelerations(pos)`.  `acc = np.zeros_like(pos)`
is the `replicate` of zero rows; the outer `for i in range(3)` loop writes
each computed row into it. -/
noncomputable def computeAccelerations (m : List ℝ) (pos : List Vec3) :
    Except SimError (List Vec3) :=
  (List.range 3).foldlM
    (fun acc i => do
      let row ← accRow m pos i
      Except.ok (acc.set i row))
    (List.replicate pos.length (0 : Vec3))

/-- The mutable module-level state of the script during the main loop:
`masses` (never reassigned), `positions`, `velocities`, and the recorded
`trajectories` (one position snapshot per completed step, in step order). -/
structure ScriptState where
  masses : List ℝ
  positions : List Vec3
  velocities : List Vec3
  trajectories : List (List Vec3)

/-- Lines 70-73, one iteration of the main loop:
record the current positions, compute accelerations from that same snapshot,
then `velocities += acc * dt`, then `positions += velocities * dt` with the
just-updated velocities. -/
noncomputable def stepState (dt : ℝ) (s : ScriptState) :
    Except SimError ScriptState := do
  let acc ← computeAccelerations s.masses s.positions
  let newVel := List.zipWith (fun v a => v + mulScalar a dt) s.velocities acc
  let newPos := List.zipWith (fun p v => p + mulScalar v dt) s.positions newVel
  Except.ok { masses := s.masses, positions := newPos, velocities := newVel,
              trajectories := s.trajectories ++ [s.positions] }

/-- Line 69: `for t in range(steps)`, iterating `stepState`. -/
noncomputable def runState (dt : ℝ) : ℕ → ScriptState → Except SimError ScriptState
  | 0, s => Except.ok s
  | Nat.succ n, s => do
      let s2 ← stepState dt s
      runState dt n s2

/-- A full configuration as the spec's construction input (§6):
masses, initial positions, initial velocities, `dt`, `steps`. -/
structure Config where
  masses : List ℝ
  positions : List Vec3
  velocities : List Vec3
  dt : ℝ
  steps : ℕ

/-- Lines 33-52: "construction" in the script is plain assignment of the
configuration values; no constraint is checked and no error can be raised. -/
def construct (m : List ℝ) (p v : List Vec3) (d : ℝ) (n : ℕ) :
    Except SimError Config :=
  Except.ok { masses := m, positions := p, velocities := v, dt := d, steps := n }

/-- The spec's force law (§4.2), written from its words:
`acceleration(i) = G * Σ_{j≠i} mass[j] * (pos[j] - pos[i]) / |pos[j] - pos[i]|³`.
Used only to compare against the code's `computeAccelerations`. -/
noncomputable def specAccel (m : Fin 3 → ℝ) (p : Fin 3 → Vec3) (i : Fin 3) : Vec3 :=
  G • ∑ j : Fin 3,
    if j = i then 0
    else divScalar (m j • (p j - p i)) (norm3 (p j - p i) ^ 3)

/-- Total linear momentum `Σ_i m[i] * v[i]` of a list of bodies. -/
noncomputable def momentum (m : List ℝ) (v : List Vec3) : Vec3 :=
  (List.zipWith (fun a b => a • b) m v).sum

/-- The acceleration phase of a step, as a function of the loop state: line
71 reads only the mass vector and the current position snapshot. -/
noncomputable def accOf (s : ScriptState) : Except SimError (List Vec3) :=
  computeAccelerations s.masses s.positions

/-- The value the inner loop's step leaves in the accumulator (pure image of
one `accRow` fold step, with in-range reads). -/
noncomputable def rowStep (m : List ℝ) (pos : List Vec3) (i : ℕ) (a : Vec3) (j : ℕ) : Vec3 :=
  if i = j then a
  else a + accContrib (m.getD j 0) (pos.getD i 0) (pos.getD j 0)

/-- The value of `acc[i]` after the inner loop, for in-range reads. -/
noncomputable def rowVal (m : List ℝ) (pos : List Vec3) (i : ℕ) : Vec3 :=
  rowStep m pos i (rowStep m pos i (rowStep m pos i 0 0) 1) 2

/-! ## Evaluation lemmas for `compute_accelerations` -/

lemma getE_ok {α : Type} (l : List α) (i : ℕ) (d : α) (h : i < l.length) :
    getE l i = Except.ok (l.getD i d) := by
  simp [getE, List.getElem?_eq_getElem h, List.getD_eq_getElem?_getD]

lemma getE_err {α : Type} (l : List α) (i : ℕ) (h : l.length ≤ i) :
    getE l i = Except.error SimError.indexOutOfRange := by
  simp [getE, List.getElem?_eq_none h]

lemma accRow_eval (m : List ℝ) (pos : List Vec3) (i : ℕ) (hi : i < 3)
    (hm : 3 ≤ m.length) (hp : 3 ≤ pos.length) :
    accRow m pos i = Except.ok (rowVal m pos i) := by
  have hm0 := getE_ok m 0 0 (by omega)
  have hm1 := getE_ok m 1 0 (by omega)
  have hm2 := getE_ok m 2 0 (by omega)
  have hp0 := getE_ok pos 0 0 (by omega)
  have hp1 := getE_ok pos 1 0 (by omega)
  have hp2 := getE_ok pos 2 0 (by omega)
  have hr : List.range 3 = [0, 1, 2] := rfl
  interval_cases i <;>
    simp [accRow, rowVal, rowStep, hr, List.foldlM, Bind.bind, Except.bind, Pure.pure, Except.pure,
      hm0, hm1, hm2, hp0, hp1, hp2]

lemma computeAccel_eval (m : List ℝ) (pos : List Vec3)
    (hm : 3 ≤ m.length) (hp : 3 ≤ pos.length) :
    computeAccelerations m pos = Except.ok
      ((((List.replicate pos.length (0 : Vec3)).set 0 (rowVal m pos 0)).set 1
          (rowVal m pos 1)).set 2 (rowVal m pos 2)) := by
  have hr : List.range 3 = [0, 1, 2] := rfl
  simp [computeAccelerations, hr, List.foldlM, Bind.bind, Except.bind, Pure.pure, Except.pure,
    accRow_eval m pos 0 (by norm_num) hm hp,
    accRow_eval m pos 1 (by norm_num) hm hp,
    accRow_eval m pos 2 (by norm_num) hm hp]

lemma computeAccel_triple (m0 m1 m2 : ℝ) (p0 p1 p2 : Vec3) :
    computeAccelerations [m0, m1, m2] [p0, p1, p2] = Except.ok
      [accContrib m1 p0 p1 + accContrib m2 p0 p2,
       accContrib m0 p1 p0 + accContrib m2 p1 p2,
       accContrib m0 p2 p0 + accContrib m1 p2 p1] := by
  rw [computeAccel_eval _ _ (by simp) (by simp)]
  simp [rowVal, rowStep, List.set, List.getD]

/-! ## Vector and norm helper lemmas -/

lemma vec3_eq {a b : Vec3} (h1 : a.1 = b.1) (h2 : a.2.1 = b.2.1)
    (h3 : a.2.2 = b.2.2) : a = b :=
  Prod.ext h1 (Prod.ext h2 h3)

lemma norm3_eq_zero_iff (v : Vec3) : norm3 v = 0 ↔ v = 0 := by
  obtain ⟨x, y, z⟩ := v
  constructor
  · intro h
    simp only [norm3, Real.sqrt_eq_zero'] at h
    have hx : x = 0 := by nlinarith
    have hy : y = 0 := by nlinarith
    have hz : z = 0 := by nlinarith
    simp [hx, hy, hz, Prod.ext_iff]
  · intro h
    rw [h]
    simp [norm3, Real.sqrt_eq_zero']

lemma norm3_sub_comm (a b : Vec3) : norm3 (a - b) = norm3 (b - a) := by
  obtain ⟨x1, y1, z1⟩ := a
  obtain ⟨x2, y2, z2⟩ := b
  simp only [norm3, Prod.mk_sub_mk]
  ring_nf

/-! ## Evaluation lemmas for the integration loop -/

lemma stepState_eval (d : ℝ) (s : ScriptState) (acc : List Vec3)
    (h : computeAccelerations s.masses s.positions = Except.ok acc) :
    stepState d s = Except.ok
      { masses := s.masses,
        positions := List.zipWith (fun p v => p + mulScalar v d) s.positions
          (List.zipWith (fun v a => v + mulScalar a d) s.velocities acc),
        velocities := List.zipWith (fun v a => v + mulScalar a d) s.velocities acc,
        trajectories := s.trajectories ++ [s.positions] } := by
  simp [stepState, h, Bind.bind, Except.bind]

lemma stepState_err (d : ℝ) (s : ScriptState) (e : SimError)
    (h : computeAccelerations s.masses s.positions = Except.error e) :
    stepState d s = Except.error e := by
  simp [stepState, h, Bind.bind, Except.bind]

lemma runState_zero (d : ℝ) (s : ScriptState) : runState d 0 s = Except.ok s := rfl

lemma runState_succ (d : ℝ) (n : ℕ) (s : ScriptState) :
    runState d (n + 1) s = (stepState d s) >>= runState d n := rfl

lemma stepState_masses (d : ℝ) (s s' : ScriptState)
    (h : stepState d s = Except.ok s') : s'.masses = s.masses := by
  unfold stepState at h
  cases hc : computeAccelerations s.masses s.positions with
  | ok acc =>
    rw [hc] at h
    simp only [Bind.bind, Except.bind] at h
    cases h
    rfl
  | error e =>
    rw [hc] at h
    simp only [Bind.bind, Except.bind] at h
    cases h

lemma runState_masses (d : ℝ) :
    ∀ (n : ℕ) (s s' : ScriptState), runState d n s = Except.ok s' →
      s'.masses = s.masses := by
  intro n
  induction n with
  | zero =>
    intro s s' h
    rw [runState_zero] at h
    cases h
    rfl
  | succ k ih =>
    intro s s' h
    rw [runState_succ] at h
    cases hc : stepState d s with
    | ok s2 =>
      rw [hc] at h
      simp only [Bind.bind, Except.bind] at h
      rw [ih s2 s' h, stepState_masses d s s2 hc]
    | error e =>
      rw [hc] at h
      simp only [Bind.bind, Except.bind] at h
      cases h

lemma stepState_triple (d m0 m1 m2 : ℝ) (p0 p1 p2 v0 v1 v2 : Vec3)
    (tr : List (List Vec3)) (a0 a1 a2 : Vec3)
    (h : computeAccelerations [m0, m1, m2] [p0, p1, p2] = Except.ok [a0, a1, a2]) :
    stepState d ⟨[m0, m1, m2], [p0, p1, p2], [v0, v1, v2], tr⟩ = Except.ok
      ⟨[m0, m1, m2],
       [p0 + mulScalar (v0 + mulScalar a0 d) d,
        p1 + mulScalar (v1 + mulScalar a1 d) d,
        p2 + mulScalar (v2 + mulScalar a2 d) d],
       [v0 + mulScalar a0 d, v1 + mulScalar a1 d, v2 + mulScalar a2 d],
       tr ++ [[p0, p1, p2]]⟩ := by
  rw [stepState_eval d ⟨[m0, m1, m2], [p0, p1, p2], [v0, v1, v2], tr⟩ [a0, a1, a2] h]
  simp [List.zipWith]

lemma runState_ok_triple (d m0 m1 m2 : ℝ) :
    ∀ (n : ℕ) (p0 p1 p2 v0 v1 v2 : Vec3) (tr : List (List Vec3)),
      ∃ s', runState d n ⟨[m0, m1, m2], [p0, p1, p2], [v0, v1, v2], tr⟩ =
          Except.ok s' ∧
        s'.masses = [m0, m1, m2] ∧
        ∃ extra, s'.trajectories = tr ++ extra ∧ extra.length = n ∧
          (0 < n → extra[0]? = some [p0, p1, p2]) := by
  intro n
  induction n with
  | zero =>
    intro p0 p1 p2 v0 v1 v2 tr
    exact ⟨_, runState_zero d _, rfl, [], by simp, by simp, by omega⟩
  | succ k ih =>
    intro p0 p1 p2 v0 v1 v2 tr
    have hacc := computeAccel_triple m0 m1 m2 p0 p1 p2
    have hstep := stepState_triple d m0 m1 m2 p0 p1 p2 v0 v1 v2 tr _ _ _ hacc
    obtain ⟨s', hrun, hm, extra, htr, hlen, _⟩ :=
      ih (p0 + mulScalar (v0 + mulScalar (accContrib m1 p0 p1 + accContrib m2 p0 p2) d) d)
        (p1 + mulScalar (v1 + mulScalar (accContrib m0 p1 p0 + accContrib m2 p1 p2) d) d)
        (p2 + mulScalar (v2 + mulScalar (accContrib m0 p2 p0 + accContrib m1 p2 p1) d) d)
        (v0 + mulScalar (accContrib m1 p0 p1 + accContrib m2 p0 p2) d)
        (v1 + mulScalar (accContrib m0 p1 p0 + accContrib m2 p1 p2) d)
        (v2 + mulScalar (accContrib m0 p2 p0 + accContrib m1 p2 p1) d)
        (tr ++ [[p0, p1, p2]])
    refine ⟨s', ?_, hm, [p0, p1, p2] :: extra, ?_, by simp [hlen], by simp⟩
    · rw [runState_succ, hstep]
      simpa [Bind.bind, Except.bind] using hrun
    · rw [htr]
      simp

lemma accContrib_pair (mA mB : ℝ) (pI pA pB : Vec3) :
    accContrib mA pI pA + accContrib mB pI pB =
      G • (divScalar (mA • (pA - pI)) (norm3 (pA - pI) ^ 3) +
           divScalar (mB • (pB - pI)) (norm3 (pB - pI) ^ 3)) := by
  obtain ⟨ax, ay, az⟩ := pI
  obtain ⟨bx, by_, bz⟩ := pA
  obtain ⟨cx, cy, cz⟩ := pB
  simp only [accContrib, divScalar, Prod.mk_sub_mk, Prod.smul_mk, smul_eq_mul,
    Prod.mk_add_mk, Prod.mk.injEq]
  refine ⟨by ring, by ring, by ring⟩

/-! ## Claims -/

/-- C1: for every body index `i` and every 3-body position snapshot in which
all pairwise distances are nonzero, `compute_accelerations` returns for body
`i` exactly `G * Σ_{j≠i} mass[j] * (pos[j] - pos[i]) / |pos[j] - pos[i]|³`
(the spec's force law `specAccel`), with `G = 6.67430e-11`. -/
theorem compute_accelerations_is_newtonian_sum (m : Fin 3 → ℝ) (p : Fin 3 → Vec3)
    (h01 : norm3 (p 1 - p 0) ≠ 0) (h02 : norm3 (p 2 - p 0) ≠ 0)
    (h12 : norm3 (p 2 - p 1) ≠ 0) :
    G = 6.67430e-11 ∧
    computeAccelerations [m 0, m 1, m 2] [p 0, p 1, p 2] =
      Except.ok [specAccel m p 0, specAccel m p 1, specAccel m p 2] := by
  refine ⟨rfl, ?_⟩
  rw [computeAccel_triple, accContrib_pair, accContrib_pair, accContrib_pair]
  simp [specAccel, Fin.sum_univ_three]

/-- Witness for C1 at a concrete snapshot with pairwise-distinct positions. -/
theorem compute_accelerations_is_newtonian_sum_witness :
    (norm3 ((![((0:ℝ),(0:ℝ),(0:ℝ)), (1,0,0), (0,1,0)] : Fin 3 → Vec3) 1 -
            (![((0:ℝ),(0:ℝ),(0:ℝ)), (1,0,0), (0,1,0)] : Fin 3 → Vec3) 0) ≠ 0) ∧
    (norm3 ((![((0:ℝ),(0:ℝ),(0:ℝ)), (1,0,0), (0,1,0)] : Fin 3 → Vec3) 2 -
            (![((0:ℝ),(0:ℝ),(0:ℝ)), (1,0,0), (0,1,0)] : Fin 3 → Vec3) 0) ≠ 0) ∧
    (norm3 ((![((0:ℝ),(0:ℝ),(0:ℝ)), (1,0,0), (0,1,0)] : Fin 3 → Vec3) 2 -
            (![((0:ℝ),(0:ℝ),(0:ℝ)), (1,0,0), (0,1,0)] : Fin 3 → Vec3) 1) ≠ 0) ∧
    (G = 6.67430e-11 ∧
     computeAccelerations
        [(fun _ => (1:ℝ)) 0, (fun _ => (1:ℝ)) 1, (fun _ => (1:ℝ)) 2]
        [(![((0:ℝ),(0:ℝ),(0:ℝ)), (1,0,0), (0,1,0)] : Fin 3 → Vec3) 0,
         (![((0:ℝ),(0:ℝ),(0:ℝ)), (1,0,0), (0,1,0)] : Fin 3 → Vec3) 1,
         (![((0:ℝ),(0:ℝ),(0:ℝ)), (1,0,0), (0,1,0)] : Fin 3 → Vec3) 2] =
      Except.ok
        [specAccel (fun _ => (1:ℝ)) ![((0:ℝ),(0:ℝ),(0:ℝ)), (1,0,0), (0,1,0)] 0,
         specAccel (fun _ => (1:ℝ)) ![((0:ℝ),(0:ℝ),(0:ℝ)), (1,0,0), (0,1,0)] 1,
         specAccel (fun _ => (1:ℝ)) ![((0:ℝ),(0:ℝ),(0:ℝ)), (1,0,0), (0,1,0)] 2]) := by
  have h01 : norm3 ((![((0:ℝ),(0:ℝ),(0:ℝ)), (1,0,0), (0,1,0)] : Fin 3 → Vec3) 1 -
      (![((0:ℝ),(0:ℝ),(0:ℝ)), (1,0,0), (0,1,0)] : Fin 3 → Vec3) 0) ≠ 0 := by
    rw [Ne, norm3_eq_zero_iff]
    simp [Prod.ext_iff]
  have h02 : norm3 ((![((0:ℝ),(0:ℝ),(0:ℝ)), (1,0,0), (0,1,0)] : Fin 3 → Vec3) 2 -
      (![((0:ℝ),(0:ℝ),(0:ℝ)), (1,0,0), (0,1,0)] : Fin 3 → Vec3) 0) ≠ 0 := by
    rw [Ne, norm3_eq_zero_iff]
    simp [Prod.ext_iff]
  have h12 : norm3 ((![((0:ℝ),(0:ℝ),(0:ℝ)), (1,0,0), (0,1,0)] : Fin 3 → Vec3) 2 -
      (![((0:ℝ),(0:ℝ),(0:ℝ)), (1,0,0), (0,1,0)] : Fin 3 → Vec3) 1) ≠ 0 := by
    rw [Ne, norm3_eq_zero_iff]
    simp [Prod.ext_iff]
  exact ⟨h01, h02, h12,
    compute_accelerations_is_newtonian_sum (fun _ => (1:ℝ))
      ![((0:ℝ),(0:ℝ),(0:ℝ)), (1,0,0), (0,1,0)] h01 h02 h12⟩

/-- C2: each iteration of the main loop appends the pre-update positions to
the trajectory, computes every acceleration from that same snapshot, updates
every velocity by `v += acc * dt`, and then every position by
`p += v * dt` with the just-updated velocity (Euler-Cromer order). -/
theorem step_euler_cromer_order (d : ℝ) (s : ScriptState) (acc : List Vec3)
    (h : computeAccelerations s.masses s.positions = Except.ok acc) :
    (∀ n : ℕ, runState d (n + 1) s = stepState d s >>= runState d n) ∧
    stepState d s = Except.ok
      { masses := s.masses,
        positions := List.zipWith (fun p v => p + mulScalar v d) s.positions
          (List.zipWith (fun v a => v + mulScalar a d) s.velocities acc),
        velocities := List.zipWith (fun v a => v + mulScalar a d) s.velocities acc,
        trajectories := s.trajectories ++ [s.positions] } :=
  ⟨fun n => runState_succ d n s, stepState_eval d s acc h⟩

/-- Witness for C2 at a concrete all-zero three-body state. -/
theorem step_euler_cromer_order_witness :
    (computeAccelerations
        (⟨[0, 0, 0], [((0:ℝ),(0:ℝ),(0:ℝ)), ((0:ℝ),(0:ℝ),(0:ℝ)), ((0:ℝ),(0:ℝ),(0:ℝ))],
          [((0:ℝ),(0:ℝ),(0:ℝ)), ((0:ℝ),(0:ℝ),(0:ℝ)), ((0:ℝ),(0:ℝ),(0:ℝ))], []⟩ : ScriptState).masses
        (⟨[0, 0, 0], [((0:ℝ),(0:ℝ),(0:ℝ)), ((0:ℝ),(0:ℝ),(0:ℝ)), ((0:ℝ),(0:ℝ),(0:ℝ))],
          [((0:ℝ),(0:ℝ),(0:ℝ)), ((0:ℝ),(0:ℝ),(0:ℝ)), ((0:ℝ),(0:ℝ),(0:ℝ))], []⟩ : ScriptState).positions =
      Except.ok [0, 0, 0]) ∧
    ((∀ n : ℕ, runState 1 (n + 1)
        (⟨[0, 0, 0], [((0:ℝ),(0:ℝ),(0:ℝ)), ((0:ℝ),(0:ℝ),(0:ℝ)), ((0:ℝ),(0:ℝ),(0:ℝ))],
          [((0:ℝ),(0:ℝ),(0:ℝ)), ((0:ℝ),(0:ℝ),(0:ℝ)), ((0:ℝ),(0:ℝ),(0:ℝ))], []⟩ : ScriptState) =
        stepState 1
          (⟨[0, 0, 0], [((0:ℝ),(0:ℝ),(0:ℝ)), ((0:ℝ),(0:ℝ),(0:ℝ)), ((0:ℝ),(0:ℝ),(0:ℝ))],
            [((0:ℝ),(0:ℝ),(0:ℝ)), ((0:ℝ),(0:ℝ),(0:ℝ)), ((0:ℝ),(0:ℝ),(0:ℝ))], []⟩ : ScriptState) >>=
          runState 1 n) ∧
     stepState 1
        (⟨[0, 0, 0], [((0:ℝ),(0:ℝ),(0:ℝ)), ((0:ℝ),(0:ℝ),(0:ℝ)), ((0:ℝ),(0:ℝ),(0:ℝ))],
          [((0:ℝ),(0:ℝ),(0:ℝ)), ((0:ℝ),(0:ℝ),(0:ℝ)), ((0:ℝ),(0:ℝ),(0:ℝ))], []⟩ : ScriptState) =
       Except.ok
        { masses :=
            (⟨[0, 0, 0], [((0:ℝ),(0:ℝ),(0:ℝ)), ((0:ℝ),(0:ℝ),(0:ℝ)), ((0:ℝ),(0:ℝ),(0:ℝ))],
              [((0:ℝ),(0:ℝ),(0:ℝ)), ((0:ℝ),(0:ℝ),(0:ℝ)), ((0:ℝ),(0:ℝ),(0:ℝ))], []⟩ : ScriptState).masses,
          positions := List.zipWith (fun p v => p + mulScalar v 1)
            (⟨[0, 0, 0], [((0:ℝ),(0:ℝ),(0:ℝ)), ((0:ℝ),(0:ℝ),(0:ℝ)), ((0:ℝ),(0:ℝ),(0:ℝ))],
              [((0:ℝ),(0:ℝ),(0:ℝ)), ((0:ℝ),(0:ℝ),(0:ℝ)), ((0:ℝ),(0:ℝ),(0:ℝ))], []⟩ : ScriptState).positions
            (List.zipWith (fun v a => v + mulScalar a 1)
              (⟨[0, 0, 0], [((0:ℝ),(0:ℝ),(0:ℝ)), ((0:ℝ),(0:ℝ),(0:ℝ)), ((0:ℝ),(0:ℝ),(0:ℝ))],
                [((0:ℝ),(0:ℝ),(0:ℝ)), ((0:ℝ),(0:ℝ),(0:ℝ)), ((0:ℝ),(0:ℝ),(0:ℝ))], []⟩ : ScriptState).velocities
              [0, 0, 0]),
          velocities := List.zipWith (fun v a => v + mulScalar a 1)
            (⟨[0, 0, 0], [((0:ℝ),(0:ℝ),(0:ℝ)), ((0:ℝ),(0:ℝ),(0:ℝ)), ((0:ℝ),(0:ℝ),(0:ℝ))],
              [((0:ℝ),(0:ℝ),(0:ℝ)), ((0:ℝ),(0:ℝ),(0:ℝ)), ((0:ℝ),(0:ℝ),(0:ℝ))], []⟩ : ScriptState).velocities
            [0, 0, 0],
          trajectories :=
            (⟨[0, 0, 0], [((0:ℝ),(0:ℝ),(0:ℝ)), ((0:ℝ),(0:ℝ),(0:ℝ)), ((0:ℝ),(0:ℝ),(0:ℝ))],
              [((0:ℝ),(0:ℝ),(0:ℝ)), ((0:ℝ),(0:ℝ),(0:ℝ)), ((0:ℝ),(0:ℝ),(0:ℝ))], []⟩ : ScriptState).trajectories ++
            [(⟨[0, 0, 0], [((0:ℝ),(0:ℝ),(0:ℝ)), ((0:ℝ),(0:ℝ),(0:ℝ)), ((0:ℝ),(0:ℝ),(0:ℝ))],
              [((0:ℝ),(0:ℝ),(0:ℝ)), ((0:ℝ),(0:ℝ),(0:ℝ)), ((0:ℝ),(0:ℝ),(0:ℝ))], []⟩ : ScriptState).positions] }) := by
  have h : computeAccelerations [(0:ℝ), 0, 0]
      [((0:ℝ),(0:ℝ),(0:ℝ)), ((0:ℝ),(0:ℝ),(0:ℝ)), ((0:ℝ),(0:ℝ),(0:ℝ))] = Except.ok [0, 0, 0] := by
    rw [computeAccel_triple]
    simp [accContrib, divScalar, Prod.ext_iff]
  exact ⟨h, step_euler_cromer_order 1 _ [0, 0, 0] h⟩

/-- C3 counterexample: with bodies 0 and 1 exactly coincident, the code does
not signal `SingularConfiguration`; it carries the division-by-zero through
(rendered as the zero contribution of exact-real division by zero) and
returns a result. -/
theorem coincident_positions_not_singular :
    computeAccelerations scriptMasses
        [((0:ℝ),(0:ℝ),(0:ℝ)), ((0:ℝ),(0:ℝ),(0:ℝ)), ((1:ℝ),(0:ℝ),(0:ℝ))] =
      Except.ok [(G * 0.55e27, 0, 0), (G * 0.55e27, 0, 0), (-(G * 2.5e27), 0, 0)] ∧
    (Except.ok [((G * 0.55e27 : ℝ), (0:ℝ), (0:ℝ)), (G * 0.55e27, 0, 0),
        (-(G * 2.5e27), 0, 0)] : Except SimError (List Vec3)) ≠
      Except.error SimError.singularConfiguration := by
  refine ⟨?_, by simp⟩
  rw [show scriptMasses = [(1.0e27:ℝ), 1.5e27, 0.55e27] from rfl, computeAccel_triple]
  have h1 : norm3 (((0:ℝ),(0:ℝ),(0:ℝ)) - ((0:ℝ),(0:ℝ),(0:ℝ))) = 0 := by
    norm_num [norm3, Prod.mk_sub_mk]
  have h2 : norm3 (((1:ℝ),(0:ℝ),(0:ℝ)) - ((0:ℝ),(0:ℝ),(0:ℝ))) = 1 := by
    norm_num [norm3, Prod.mk_sub_mk]
  have h3 : norm3 (((0:ℝ),(0:ℝ),(0:ℝ)) - ((1:ℝ),(0:ℝ),(0:ℝ))) = 1 := by
    norm_num [norm3, Prod.mk_sub_mk]
  simp only [accContrib, h1, h2, h3]
  simp only [divScalar, Prod.mk_sub_mk, Prod.smul_mk, smul_eq_mul, Prod.mk_add_mk]
  norm_num [Prod.ext_iff]
  ring

/-- C3 amended: the code performs no coincidence detection at all: for every
3-body snapshot, coincident positions included, `compute_accelerations`
returns without ever signalling `SingularConfiguration`. -/
theorem compute_accelerations_never_singular (m0 m1 m2 : ℝ) (p0 p1 p2 : Vec3) :
    computeAccelerations [m0, m1, m2] [p0, p1, p2] ≠
      Except.error SimError.singularConfiguration := by
  rw [computeAccel_triple]
  simp

/-- C4 counterexample: a configuration violating every constraint at once
(one body, negative mass, mismatched lengths, negative dt, zero steps) is
accepted; no `InvalidConfiguration` error is raised. -/
theorem construct_accepts_invalid_configuration :
    construct [(-1:ℝ)] [((0:ℝ),(0:ℝ),(0:ℝ))] [] (-1) 0 ≠
      Except.error SimError.invalidConfiguration := by
  simp [construct]

/-- C4 amended: the script performs no input validation whatsoever -
"construction" is plain assignment and accepts any values - while its own
hard-coded configuration does satisfy the spec's constraints (three bodies,
positive masses, matching lengths, positive dt and steps). -/
theorem construct_never_validates :
    (∀ (m : List ℝ) (p v : List Vec3) (d : ℝ) (n : ℕ),
      construct m p v d n =
        Except.ok { masses := m, positions := p, velocities := v, dt := d, steps := n }) ∧
    scriptMasses = [1.0e27, 1.5e27, 0.55e27] ∧
    ((0:ℝ) < 1.0e27 ∧ (0:ℝ) < 1.5e27 ∧ (0:ℝ) < 0.55e27) ∧
    0 < scriptDt ∧ 0 < scriptSteps ∧ 2 ≤ scriptMasses.length ∧
    scriptPositions.length = scriptMasses.length ∧
    scriptVelocities.length = scriptMasses.length := by
  refine ⟨fun m p v d n => rfl, rfl, ⟨by norm_num, by norm_num, by norm_num⟩,
    ?_, ?_, ?_, rfl, rfl⟩
  · norm_num [scriptDt]
  · norm_num [scriptSteps]
  · simp [scriptMasses]

/-- C5: the simulation is a pure function of its inputs: identical masses,
positions, velocities, time step and step count give identical runs
(trajectories and final state); the embedded loop involves no randomness
or input/output. -/
theorem simulation_deterministic (d1 d2 : ℝ) (n1 n2 : ℕ) (s1 s2 : ScriptState)
    (hd : d1 = d2) (hn : n1 = n2) (hs : s1 = s2) :
    runState d1 n1 s1 = runState d2 n2 s2 := by
  rw [hd, hn, hs]

/-- Witness for C5 on a concrete run. -/
theorem simulation_deterministic_witness :
    ((2500:ℝ) = 2500 ∧ (1:ℕ) = 1 ∧
      (⟨[1], [], [], []⟩ : ScriptState) = ⟨[1], [], [], []⟩) ∧
    runState 2500 1 (⟨[1], [], [], []⟩ : ScriptState) =
      runState 2500 1 (⟨[1], [], [], []⟩ : ScriptState) :=
  ⟨⟨rfl, rfl, rfl⟩, simulation_deterministic 2500 2500 1 1 _ _ rfl rfl rfl⟩

/-- C6: for every three-body configuration, the recorded trajectory entry at
step index 0 is exactly the construction-time positions. -/
theorem trajectory_step_zero (d m0 m1 m2 : ℝ) (p0 p1 p2 v0 v1 v2 : Vec3)
    (n : ℕ) (hn : 0 < n) :
    ∃ s', runState d n ⟨[m0, m1, m2], [p0, p1, p2], [v0, v1, v2], []⟩ =
        Except.ok s' ∧
      s'.trajectories[0]? = some [p0, p1, p2] := by
  obtain ⟨s', hrun, _, extra, htr, _, hfirst⟩ :=
    runState_ok_triple d m0 m1 m2 n p0 p1 p2 v0 v1 v2 []
  refine ⟨s', hrun, ?_⟩
  rw [htr]
  simpa using hfirst hn

/-- Witness for C6 on a concrete one-step run. -/
theorem trajectory_step_zero_witness :
    0 < 1 ∧
    ∃ s', runState 1 1
        ⟨[1, 1, 1],
         [((0:ℝ),(0:ℝ),(0:ℝ)), ((1:ℝ),(0:ℝ),(0:ℝ)), ((0:ℝ),(1:ℝ),(0:ℝ))],
         [((0:ℝ),(0:ℝ),(0:ℝ)), ((0:ℝ),(0:ℝ),(0:ℝ)), ((0:ℝ),(0:ℝ),(0:ℝ))], []⟩ =
        Except.ok s' ∧
      s'.trajectories[0]? =
        some [((0:ℝ),(0:ℝ),(0:ℝ)), ((1:ℝ),(0:ℝ),(0:ℝ)), ((0:ℝ),(1:ℝ),(0:ℝ))] :=
  ⟨by norm_num, trajectory_step_zero 1 1 1 1 _ _ _ _ _ _ 1 (by norm_num)⟩

/-- C7 counterexample: the spec's two-body scenario cannot run on this code:
`compute_accelerations` iterates over hard-coded indices 0,1,2, so the
two-row position array triggers an out-of-range access (`pos[2]`) and the
run fails with an index error instead of producing the claimed velocities. -/
theorem two_body_scenario_index_error :
    runState 100 1
        ⟨[1e27, 1e27],
         [((1e10:ℝ),(0:ℝ),(0:ℝ)), ((-1e10:ℝ),(0:ℝ),(0:ℝ))],
         [((0:ℝ),(0:ℝ),(0:ℝ)), ((0:ℝ),(0:ℝ),(0:ℝ))], []⟩ =
      Except.error SimError.indexOutOfRange := rfl

/-- C7 amended: embedding the two bodies of the scenario in a three-body run
(the only arity the code supports) with a massless spectator at a distinct
position, one step with dt = 100 gives the two bodies velocities with
nonzero x-component only, equal magnitude `G*1e27/(2e10)^2*100`, and
opposite signs. -/
theorem two_body_scenario_with_spectator :
    ∃ s', runState 100 1
        ⟨[1e27, 1e27, 0],
         [((1e10:ℝ),(0:ℝ),(0:ℝ)), ((-1e10:ℝ),(0:ℝ),(0:ℝ)), ((0:ℝ),(1e10:ℝ),(0:ℝ))],
         [((0:ℝ),(0:ℝ),(0:ℝ)), ((0:ℝ),(0:ℝ),(0:ℝ)), ((0:ℝ),(0:ℝ),(0:ℝ))], []⟩ =
        Except.ok s' ∧
      s'.velocities[0]? = some (-(G * 1e27 / (2e10)^2 * 100), 0, 0) ∧
      s'.velocities[1]? = some ((G * 1e27 / (2e10)^2 * 100), 0, 0) := by
  have hz1 : accContrib 0 ((1e10:ℝ),(0:ℝ),(0:ℝ)) ((0:ℝ),(1e10:ℝ),(0:ℝ)) = 0 := by
    simp [accContrib, divScalar, Prod.ext_iff]
  have hz2 : accContrib 0 ((-1e10:ℝ),(0:ℝ),(0:ℝ)) ((0:ℝ),(1e10:ℝ),(0:ℝ)) = 0 := by
    simp [accContrib, divScalar, Prod.ext_iff]
  have hd1 : norm3 (((-1e10:ℝ),(0:ℝ),(0:ℝ)) - ((1e10:ℝ),(0:ℝ),(0:ℝ))) = 2e10 := by
    simp only [norm3, Prod.mk_sub_mk]
    rw [show ((-1e10:ℝ) - 1e10) ^ 2 + ((0:ℝ) - 0) ^ 2 + ((0:ℝ) - 0) ^ 2 = ((2e10:ℝ))^2
      by norm_num]
    exact Real.sqrt_sq (by norm_num)
  have hd2 : norm3 (((1e10:ℝ),(0:ℝ),(0:ℝ)) - ((-1e10:ℝ),(0:ℝ),(0:ℝ))) = 2e10 := by
    simp only [norm3, Prod.mk_sub_mk]
    rw [show ((1e10:ℝ) - -1e10) ^ 2 + ((0:ℝ) - 0) ^ 2 + ((0:ℝ) - 0) ^ 2 = ((2e10:ℝ))^2
      by norm_num]
    exact Real.sqrt_sq (by norm_num)
  have ha : accContrib (1e27) ((1e10:ℝ),(0:ℝ),(0:ℝ)) ((-1e10:ℝ),(0:ℝ),(0:ℝ)) =
      (-(G * 1e27 / (2e10)^2), 0, 0) := by
    simp only [accContrib]
    rw [hd1]
    simp only [divScalar, Prod.mk_sub_mk, Prod.smul_mk, smul_eq_mul]
    norm_num [Prod.ext_iff]
    ring_nf
  have hb : accContrib (1e27) ((-1e10:ℝ),(0:ℝ),(0:ℝ)) ((1e10:ℝ),(0:ℝ),(0:ℝ)) =
      ((G * 1e27 / (2e10)^2), 0, 0) := by
    simp only [accContrib]
    rw [hd2]
    simp only [divScalar, Prod.mk_sub_mk, Prod.smul_mk, smul_eq_mul]
    norm_num [Prod.ext_iff]
    ring_nf
  have hacc := computeAccel_triple (1e27) (1e27) 0
    ((1e10:ℝ),(0:ℝ),(0:ℝ)) ((-1e10:ℝ),(0:ℝ),(0:ℝ)) ((0:ℝ),(1e10:ℝ),(0:ℝ))
  have hstep := stepState_triple 100 (1e27) (1e27) 0
    ((1e10:ℝ),(0:ℝ),(0:ℝ)) ((-1e10:ℝ),(0:ℝ),(0:ℝ)) ((0:ℝ),(1e10:ℝ),(0:ℝ))
    ((0:ℝ),(0:ℝ),(0:ℝ)) ((0:ℝ),(0:ℝ),(0:ℝ)) ((0:ℝ),(0:ℝ),(0:ℝ)) [] _ _ _ hacc
  have hrun : runState 100 1
      ⟨[1e27, 1e27, 0],
       [((1e10:ℝ),(0:ℝ),(0:ℝ)), ((-1e10:ℝ),(0:ℝ),(0:ℝ)), ((0:ℝ),(1e10:ℝ),(0:ℝ))],
       [((0:ℝ),(0:ℝ),(0:ℝ)), ((0:ℝ),(0:ℝ),(0:ℝ)), ((0:ℝ),(0:ℝ),(0:ℝ))], []⟩ =
      stepState 100
      ⟨[1e27, 1e27, 0],
       [((1e10:ℝ),(0:ℝ),(0:ℝ)), ((-1e10:ℝ),(0:ℝ),(0:ℝ)), ((0:ℝ),(1e10:ℝ),(0:ℝ))],
       [((0:ℝ),(0:ℝ),(0:ℝ)), ((0:ℝ),(0:ℝ),(0:ℝ)), ((0:ℝ),(0:ℝ),(0:ℝ))], []⟩ >>=
      runState 100 0 := rfl
  rw [hrun, hstep]
  refine ⟨_, rfl, ?_, ?_⟩
  · dsimp only
    simp only [List.getElem?_cons_zero, hz1, ha, add_zero, Option.some.injEq]
    simp [mulScalar, Prod.ext_iff]
  · dsimp only
    simp only [List.getElem?_cons_succ, List.getElem?_cons_zero, hz2, hb, add_zero,
      Option.some.injEq]
    simp [mulScalar, Prod.ext_iff]

/-- C8: the acceleration computation mutates no input state: it is a pure
function of the mass vector and position snapshot alone (any two loop states
agreeing on those get identical accelerations, whatever their velocities and
trajectories), and a whole run of any length leaves the masses unchanged. -/
theorem acceleration_pure_masses_immutable :
    (∀ (d : ℝ) (n : ℕ) (s s' : ScriptState),
      runState d n s = Except.ok s' → s'.masses = s.masses) ∧
    (∀ s t : ScriptState, s.masses = t.masses → s.positions = t.positions →
      accOf s = accOf t) := by
  refine ⟨fun d n s s' h => runState_masses d n s s' h, fun s t h1 h2 => ?_⟩
  simp [accOf, h1, h2]

/-- Witness for C8 on concrete states. -/
theorem acceleration_pure_masses_immutable_witness :
    (runState (1:ℝ) 0 (⟨[1], [], [], []⟩ : ScriptState) =
        Except.ok (⟨[1], [], [], []⟩ : ScriptState) ∧
      (⟨[1], [], [], []⟩ : ScriptState).masses =
        (⟨[1], [], [], []⟩ : ScriptState).masses) ∧
    ((⟨[1], [], [], []⟩ : ScriptState).masses =
        (⟨[1], [], [], []⟩ : ScriptState).masses ∧
      (⟨[1], [], [], []⟩ : ScriptState).positions =
        (⟨[1], [], [], []⟩ : ScriptState).positions ∧
      accOf (⟨[1], [], [], []⟩ : ScriptState) =
        accOf (⟨[1], [], [], []⟩ : ScriptState)) :=
  ⟨⟨rfl, acceleration_pure_masses_immutable.1 1 0 _ _ rfl⟩,
   ⟨rfl, rfl, acceleration_pure_masses_immutable.2 _ _ rfl rfl⟩⟩

lemma momentum_triple (m0 m1 m2 : ℝ) (v0 v1 v2 : Vec3) :
    momentum [m0, m1, m2] [v0, v1, v2] = m0 • v0 + (m1 • v1 + m2 • v2) := by
  simp [momentum, List.zipWith]

/-- C9: Newton's third-law antisymmetry in exact arithmetic: for every 3-body
snapshot with pairwise-distinct positions the mass-weighted accelerations sum
to the zero vector, and hence one velocity update of the loop preserves the
total momentum `Σ_i m[i] * v[i]` exactly. -/
theorem weighted_accelerations_cancel (d m0 m1 m2 : ℝ) (p0 p1 p2 v0 v1 v2 : Vec3)
    (tr : List (List Vec3)) (h01 : p0 ≠ p1) (h02 : p0 ≠ p2) (h12 : p1 ≠ p2) :
    ∃ a0 a1 a2,
      computeAccelerations [m0, m1, m2] [p0, p1, p2] = Except.ok [a0, a1, a2] ∧
      m0 • a0 + (m1 • a1 + m2 • a2) = (0 : Vec3) ∧
      ∀ s', stepState d ⟨[m0, m1, m2], [p0, p1, p2], [v0, v1, v2], tr⟩ =
          Except.ok s' →
        momentum [m0, m1, m2] s'.velocities = momentum [m0, m1, m2] [v0, v1, v2] := by
  have hacc := computeAccel_triple m0 m1 m2 p0 p1 p2
  have hs01 : norm3 (p0 - p1) = norm3 (p1 - p0) := norm3_sub_comm p0 p1
  have hs02 : norm3 (p0 - p2) = norm3 (p2 - p0) := norm3_sub_comm p0 p2
  have hs12 : norm3 (p1 - p2) = norm3 (p2 - p1) := norm3_sub_comm p1 p2
  have hzero : m0 • (accContrib m1 p0 p1 + accContrib m2 p0 p2) +
      (m1 • (accContrib m0 p1 p0 + accContrib m2 p1 p2) +
       m2 • (accContrib m0 p2 p0 + accContrib m1 p2 p1)) = (0 : Vec3) := by
    apply vec3_eq <;>
      simp only [accContrib, divScalar, hs01, hs02, hs12, Prod.fst_add, Prod.snd_add,
        Prod.smul_fst, Prod.smul_snd, Prod.fst_sub, Prod.snd_sub, smul_eq_mul,
        Prod.fst_zero, Prod.snd_zero] <;>
      ring
  refine ⟨_, _, _, hacc, hzero, ?_⟩
  intro s' hs'
  rw [stepState_triple d m0 m1 m2 p0 p1 p2 v0 v1 v2 tr _ _ _ hacc] at hs'
  cases hs'
  rw [momentum_triple, momentum_triple]
  have h1 := congrArg Prod.fst hzero
  have h2 := congrArg (fun w : Vec3 => w.2.1) hzero
  have h3 := congrArg (fun w : Vec3 => w.2.2) hzero
  simp only [Prod.fst_add, Prod.snd_add, Prod.smul_fst, Prod.smul_snd, smul_eq_mul,
    Prod.fst_zero, Prod.snd_zero] at h1 h2 h3
  apply vec3_eq
  · simp only [Prod.fst_add, Prod.snd_add, Prod.smul_fst, Prod.smul_snd, smul_eq_mul,
      mulScalar]
    linear_combination d * h1
  · simp only [Prod.fst_add, Prod.snd_add, Prod.smul_fst, Prod.smul_snd, smul_eq_mul,
      mulScalar]
    linear_combination d * h2
  · simp only [Prod.fst_add, Prod.snd_add, Prod.smul_fst, Prod.smul_snd, smul_eq_mul,
      mulScalar]
    linear_combination d * h3

/-- Witness for C9 at a concrete pairwise-distinct snapshot. -/
theorem weighted_accelerations_cancel_witness :
    ((((0:ℝ),(0:ℝ),(0:ℝ)) : Vec3) ≠ ((1:ℝ),(0:ℝ),(0:ℝ)) ∧
     (((0:ℝ),(0:ℝ),(0:ℝ)) : Vec3) ≠ ((0:ℝ),(1:ℝ),(0:ℝ)) ∧
     (((1:ℝ),(0:ℝ),(0:ℝ)) : Vec3) ≠ ((0:ℝ),(1:ℝ),(0:ℝ))) ∧
    (∃ a0 a1 a2,
      computeAccelerations [(1:ℝ), 1, 1]
          [((0:ℝ),(0:ℝ),(0:ℝ)), ((1:ℝ),(0:ℝ),(0:ℝ)), ((0:ℝ),(1:ℝ),(0:ℝ))] =
        Except.ok [a0, a1, a2] ∧
      (1:ℝ) • a0 + ((1:ℝ) • a1 + (1:ℝ) • a2) = (0 : Vec3) ∧
      ∀ s', stepState 1
          ⟨[(1:ℝ), 1, 1],
           [((0:ℝ),(0:ℝ),(0:ℝ)), ((1:ℝ),(0:ℝ),(0:ℝ)), ((0:ℝ),(1:ℝ),(0:ℝ))],
           [((0:ℝ),(0:ℝ),(0:ℝ)), ((0:ℝ),(0:ℝ),(0:ℝ)), ((0:ℝ),(0:ℝ),(0:ℝ))], []⟩ =
          Except.ok s' →
        momentum [(1:ℝ), 1, 1] s'.velocities =
          momentum [(1:ℝ), 1, 1]
            [((0:ℝ),(0:ℝ),(0:ℝ)), ((0:ℝ),(0:ℝ),(0:ℝ)), ((0:ℝ),(0:ℝ),(0:ℝ))]) := by
  have h01 : (((0:ℝ),(0:ℝ),(0:ℝ)) : Vec3) ≠ ((1:ℝ),(0:ℝ),(0:ℝ)) := by
    simp [Prod.ext_iff]
  have h02 : (((0:ℝ),(0:ℝ),(0:ℝ)) : Vec3) ≠ ((0:ℝ),(1:ℝ),(0:ℝ)) := by
    simp [Prod.ext_iff]
  have h12 : (((1:ℝ),(0:ℝ),(0:ℝ)) : Vec3) ≠ ((0:ℝ),(1:ℝ),(0:ℝ)) := by
    simp [Prod.ext_iff]
  exact ⟨⟨h01, h02, h12⟩,
    weighted_accelerations_cancel 1 1 1 1 _ _ _ _ _ _ [] h01 h02 h12⟩

lemma computeAccel_getElem (m : List ℝ) (pos : List Vec3) (hm : 3 ≤ m.length)
    (hp : 3 ≤ pos.length) :
    ∃ acc, computeAccelerations m pos = Except.ok acc ∧
      acc.length = pos.length ∧
      (∀ i : ℕ, i < 3 → acc[i]? = some (rowVal m pos i)) ∧
      (∀ i : ℕ, 3 ≤ i → i < pos.length → acc[i]? = some 0) := by
  refine ⟨_, computeAccel_eval m pos hm hp, by simp, ?_, ?_⟩
  · intro i hi
    interval_cases i
    · rw [List.getElem?_set_ne (by omega), List.getElem?_set_ne (by omega),
        List.getElem?_set_self (by simp; omega)]
    · rw [List.getElem?_set_ne (by omega), List.getElem?_set_self (by simp; omega)]
    · rw [List.getElem?_set_self (by simp; omega)]
  · intro i h3 hlen
    rw [List.getElem?_set_ne (by omega), List.getElem?_set_ne (by omega),
      List.getElem?_set_ne (by omega), List.getElem?_replicate_of_lt hlen]

lemma getD_take_eq {α : Type} (l l' : List α) (j : ℕ) (d : α) (hj : j < 3)
    (h : l.take 3 = l'.take 3) : l.getD j d = l'.getD j d := by
  rw [List.getD_eq_getElem?_getD, List.getD_eq_getElem?_getD,
    ← @List.getElem?_take_of_lt _ l 3 j hj, ← @List.getElem?_take_of_lt _ l' 3 j hj, h]

/-- C10: the body count is hard-coded to 3: `compute_accelerations` touches
only rows 0,1,2, every row at index ≥ 3 of its output is the zero vector it
was initialized with, rows 0-2 of the output depend only on the first three
rows of the positions and of the masses, and the script's own configuration
has exactly 3 bodies. -/
theorem bodies_hardcoded_three :
    (∀ (m : List ℝ) (pos : List Vec3) (i : ℕ), 3 ≤ m.length → 3 ≤ pos.length →
      3 ≤ i → i < pos.length →
      ∃ acc, computeAccelerations m pos = Except.ok acc ∧ acc[i]? = some 0) ∧
    (∀ (m m' : List ℝ) (pos pos' : List Vec3),
      3 ≤ m.length → 3 ≤ m'.length → 3 ≤ pos.length → 3 ≤ pos'.length →
      m.take 3 = m'.take 3 → pos.take 3 = pos'.take 3 →
      ∃ acc acc', computeAccelerations m pos = Except.ok acc ∧
        computeAccelerations m' pos' = Except.ok acc' ∧
        acc.take 3 = acc'.take 3) ∧
    scriptMasses.length = 3 ∧ scriptPositions.length = 3 ∧
    scriptVelocities.length = 3 := by
  refine ⟨?_, ?_, rfl, rfl, rfl⟩
  · intro m pos i hm hp h3 hlen
    obtain ⟨acc, hacc, _, _, hzero⟩ := computeAccel_getElem m pos hm hp
    exact ⟨acc, hacc, hzero i h3 hlen⟩
  · intro m m' pos pos' hm hm' hp hp' hmt hpt
    obtain ⟨acc, hacc, hlen, hlt, _⟩ := computeAccel_getElem m pos hm hp
    obtain ⟨acc', hacc', hlen', hlt', _⟩ := computeAccel_getElem m' pos' hm' hp'
    refine ⟨acc, acc', hacc, hacc', ?_⟩
    apply List.ext_getElem?
    intro i
    by_cases hi : i < 3
    · rw [List.getElem?_take_of_lt hi, List.getElem?_take_of_lt hi, hlt i hi, hlt' i hi]
      have e0m := getD_take_eq m m' 0 0 (by omega) hmt
      have e1m := getD_take_eq m m' 1 0 (by omega) hmt
      have e2m := getD_take_eq m m' 2 0 (by omega) hmt
      have e0p := getD_take_eq pos pos' 0 0 (by omega) hpt
      have e1p := getD_take_eq pos pos' 1 0 (by omega) hpt
      have e2p := getD_take_eq pos pos' 2 0 (by omega) hpt
      have eip := getD_take_eq pos pos' i 0 hi hpt
      simp only [rowVal, rowStep, e0m, e1m, e2m, e0p, e1p, e2p, eip]
    · rw [List.getElem?_eq_none, List.getElem?_eq_none]
      · simp only [List.length_take]
        omega
      · simp only [List.length_take]
        omega

/-- Witness for C10 on a concrete four-row position array. -/
theorem bodies_hardcoded_three_witness :
    ((3:ℕ) ≤ 3 ∧ (3:ℕ) ≤ 4 ∧ (3:ℕ) ≤ 3 ∧ (3:ℕ) < 4 ∧
     ([(1:ℝ), 1, 1].take 3 = [(1:ℝ), 1, 1].take 3) ∧
     ([((0:ℝ),(0:ℝ),(0:ℝ)), ((1:ℝ),(0:ℝ),(0:ℝ)), ((0:ℝ),(1:ℝ),(0:ℝ)),
        ((0:ℝ),(0:ℝ),(1:ℝ))].take 3 =
      [((0:ℝ),(0:ℝ),(0:ℝ)), ((1:ℝ),(0:ℝ),(0:ℝ)), ((0:ℝ),(1:ℝ),(0:ℝ)),
        ((0:ℝ),(0:ℝ),(1:ℝ))].take 3)) ∧
    (∃ acc, computeAccelerations [(1:ℝ), 1, 1]
        [((0:ℝ),(0:ℝ),(0:ℝ)), ((1:ℝ),(0:ℝ),(0:ℝ)), ((0:ℝ),(1:ℝ),(0:ℝ)),
         ((0:ℝ),(0:ℝ),(1:ℝ))] = Except.ok acc ∧ acc[3]? = some 0) ∧
    (∃ acc acc', computeAccelerations [(1:ℝ), 1, 1]
        [((0:ℝ),(0:ℝ),(0:ℝ)), ((1:ℝ),(0:ℝ),(0:ℝ)), ((0:ℝ),(1:ℝ),(0:ℝ)),
         ((0:ℝ),(0:ℝ),(1:ℝ))] = Except.ok acc ∧
      computeAccelerations [(1:ℝ), 1, 1]
        [((0:ℝ),(0:ℝ),(0:ℝ)), ((1:ℝ),(0:ℝ),(0:ℝ)), ((0:ℝ),(1:ℝ),(0:ℝ)),
         ((0:ℝ),(0:ℝ),(1:ℝ))] = Except.ok acc' ∧
      acc.take 3 = acc'.take 3) :=
  ⟨⟨by norm_num, by norm_num, by norm_num, by norm_num, rfl, rfl⟩,
   bodies_hardcoded_three.1 [(1:ℝ), 1, 1]
     [((0:ℝ),(0:ℝ),(0:ℝ)), ((1:ℝ),(0:ℝ),(0:ℝ)), ((0:ℝ),(1:ℝ),(0:ℝ)),
      ((0:ℝ),(0:ℝ),(1:ℝ))] 3 (by norm_num) (by norm_num) (by norm_num) (by norm_num),
   bodies_hardcoded_three.2.1 [(1:ℝ), 1, 1] [(1:ℝ), 1, 1]
     [((0:ℝ),(0:ℝ),(0:ℝ)), ((1:ℝ),(0:ℝ),(0:ℝ)), ((0:ℝ),(1:ℝ),(0:ℝ)),
      ((0:ℝ),(0:ℝ),(1:ℝ))]
     [((0:ℝ),(0:ℝ),(0:ℝ)), ((1:ℝ),(0:ℝ),(0:ℝ)), ((0:ℝ),(1:ℝ),(0:ℝ)),
      ((0:ℝ),(0:ℝ),(1:ℝ))]
     (by norm_num) (by norm_num) (by norm_num) (by norm_num) rfl rfl⟩
